import Mathlib

/-!
# Verification of the simple_fireblocks_service route handlers

Shallow embedding of the FastAPI façade over the Fireblocks SDKs:
configuration loading (`app/config.py`), the two client lifecycle
managers (`app/fireblocks_client.py`, `app/fireblocks_sdk_client.py`),
and the six route modules under `app/routes/`.

Python dicts are modelled as association lists `List (String × Val)`
(first-match lookup; Python dict keys are unique so first-match agrees
with dict semantics).  A vendor SDK call is a parameter of each handler,
of type `input → Except String output`: `.error msg` models the call
raising an exception whose `str()` is `msg`.  Each handler also returns
the list of vendor requests it issued, so "the vendor is never invoked"
is the statement that this list is empty.
-/

/-- A JSON-ish value as stored in a vendor-returned dict.  The structure
of the values never matters to the properties proved here, only key
membership and value identity, so a flat carrier suffices. -/
inductive Val where
  | str (s : String)
  | int (n : Int)
  | bool (b : Bool)
  | null
deriving DecidableEq, Repr

/-- A Python dict, as an association list. -/
abbrev Dct : Type := List (String × Val)

/-- `d.get(k)` — Python `dict.get` with no default: `None` when absent. -/
def dget (d : Dct) (k : String) : Option Val :=
  (List.find? (fun p => p.1 == k) d).map (fun p => p.2)

/-- `d.get(k, default)` — Python `dict.get` with a default. -/
def dgetD (d : Dct) (k : String) (dflt : Val) : Val :=
  (dget d k).getD dflt

/-- Substring test: `needle in hay` in Python. -/
def containsSub (hay needle : String) : Bool :=
  decide (needle.toList <:+: hay.toList)

/-- Python `str.lower()` (ASCII case mapping, which covers the
`"not found"` heuristic; Lean's `String.toLower` does not
kernel-reduce). -/
def pyLower (s : String) : String :=
  ⟨s.data.map Char.toLower⟩

/-- An HTTP response produced by a route: either a success body with its
status code, or an error with a status code and a detail string
(FastAPI's `HTTPException(status_code, detail)`). -/
inductive HResp (α : Type) where
  | success (code : Nat) (body : α)
  | error (code : Nat) (detail : String)
deriving DecidableEq, Repr

/-- The HTTP status code of a response. -/
def HResp.status : HResp α → Nat
  | .success c _ => c
  | .error c _ => c

/-- The detail string of an error response (`""` on success). -/
def HResp.detail : HResp α → String
  | .success _ _ => ""
  | .error _ d => d

/-! ## Token issuance (`app/routes/tokens.py`, `app/models.py`) -/

/-- `app.models.ParameterWithValue`. -/
structure ParameterWithValue where
  name : String
  type : String
  internal_type : String
  value : Val
  description : Option String
deriving DecidableEq, Repr

/-- `app.models.EVMTokenCreateParams`. -/
structure EVMTokenCreateParams where
  contract_id : String
  deploy_function_params : Option (List ParameterWithValue)
deriving DecidableEq, Repr

/-- `app.models.StellarRippleCreateParams`. -/
structure StellarRippleCreateParams where
  issuer_address : Option String
  symbol : Option String
  name : Option String
deriving DecidableEq, Repr

/-- `app.models.CreateTokenRequest` (the validated request body). -/
structure CreateTokenRequest where
  vault_account_id : String
  asset_id : Option String
  blockchain_id : Option String
  display_name : Option String
  evm_params : Option EVMTokenCreateParams
  stellar_ripple_params : Option StellarRippleCreateParams
deriving DecidableEq, Repr

/-- `fireblocks_sdk.tokenization_api_types.ParameterWithValue` — the SDK
parameter type; the handler always sets `function_value=None`. -/
structure SDKParameterWithValue where
  name : String
  type : String
  internal_type : String
  value : Val
  function_value : Option Val
  description : Option String
deriving DecidableEq, Repr

/-- `fireblocks_sdk.tokenization_api_types.EVMTokenCreateParams`. -/
structure SDKEVMTokenCreateParams where
  contract_id : String
  deploy_function_params : Option (List SDKParameterWithValue)
deriving DecidableEq, Repr

/-- `fireblocks_sdk.tokenization_api_types.StellarRippleCreateParams`. -/
structure SDKStellarRippleCreateParams where
  issuer_address : Option String
  symbol : Option String
  name : Option String
deriving DecidableEq, Repr

/-- The two mutually exclusive vendor parameter shapes. -/
inductive SDKCreateParams where
  | evm (p : SDKEVMTokenCreateParams)
  | stellarRipple (p : SDKStellarRippleCreateParams)
deriving DecidableEq, Repr

/-- `fireblocks_sdk.tokenization_api_types.CreateTokenRequest` — the
object passed to `fireblocks.issue_new_token`. -/
structure SDKCreateTokenRequest where
  vault_account_id : String
  create_params : SDKCreateParams
  asset_id : Option String
  blockchain_id : Option String
  display_name : Option String
deriving DecidableEq, Repr

/-- `app.models.TokenResponse`. -/
structure TokenResponse where
  id : Option Val
  status : Option Val
  asset_id : Option Val
  blockchain_id : Option Val
  vault_account_id : Option Val
  additional_data : Option Dct
deriving DecidableEq, Repr

/-- The conversion from a request parameter to an SDK parameter done in
the list comprehension of `tokens.py` lines 68–78. -/
def convertParam (p : ParameterWithValue) : SDKParameterWithValue :=
  { name := p.name
    type := p.type
    internal_type := p.internal_type
    value := p.value
    function_value := none
    description := p.description }

/-- The `deploy_params` computation of `tokens.py` lines 66–78:
`deploy_params = None`, overwritten by the converted list only under
`if request.evm_params.deploy_function_params:` — Python truthiness, so
both a missing and an *empty* parameter list leave it `None`. -/
def deployParamsField (dfp : Option (List ParameterWithValue)) :
    Option (List SDKParameterWithValue) :=
  match dfp with
  | some l => if l.isEmpty then none else some (l.map convertParam)
  | none => none

/-- `issue_new_token` — `app/routes/tokens.py` lines 24–120.  The vendor
call `fireblocks.issue_new_token` is the `vendor` parameter; the second
component of the result lists the vendor requests actually issued.  The
`HTTPException`s raised at lines 52 and 58 escape the handler through
the `except HTTPException: raise` clause at line 114; any exception
raised by the vendor call is converted to a 500 at line 116.  The
`none`/`none` case inside the else-branch is unreachable given the
guards, and is modelled as the `AttributeError` (a 500) Python would
raise there. -/
def issue_new_token (request : CreateTokenRequest)
    (vendor : SDKCreateTokenRequest → Except String Dct) :
    HResp TokenResponse × List SDKCreateTokenRequest :=
  if request.evm_params.isNone && request.stellar_ripple_params.isNone then
    (.error 400 "Either evm_params or stellar_ripple_params must be provided", [])
  else if request.evm_params.isSome && request.stellar_ripple_params.isSome then
    (.error 400 "Only one of evm_params or stellar_ripple_params should be provided", [])
  else
    let create_params? : Option SDKCreateParams :=
      match request.evm_params with
      | some evm =>
          some (.evm
            { contract_id := evm.contract_id
              deploy_function_params := deployParamsField evm.deploy_function_params })
      | none =>
          match request.stellar_ripple_params with
          | some sr =>
              some (.stellarRipple
                { issuer_address := sr.issuer_address
                  symbol := sr.symbol
                  name := sr.name })
          | none => none
    match create_params? with
    | none =>
        (.error 500 "Failed to issue token: AttributeError", [])
    | some create_params =>
        let sdk_request : SDKCreateTokenRequest :=
          { vault_account_id := request.vault_account_id
            create_params := create_params
            asset_id := request.asset_id
            blockchain_id := request.blockchain_id
            display_name := request.display_name }
        match vendor sdk_request with
        | .error e =>
            (.error 500 ("Failed to issue token: " ++ e), [sdk_request])
        | .ok token_data =>
            (.success 201
              { id := dget token_data "id"
                status := dget token_data "status"
                asset_id := dget token_data "assetId"
                blockchain_id := dget token_data "blockchainId"
                vault_account_id := dget token_data "vaultAccountId"
                additional_data := some token_data }, [sdk_request])

/-- Whether an `SDKCreateParams` is the EVM shape. -/
def SDKCreateParams.isEVM : SDKCreateParams → Bool
  | .evm _ => true
  | .stellarRipple _ => false

/-! ## Configuration (`app/config.py`) -/

/-- The raw process environment: `none` models an unset variable
(`os.getenv` then yields its default `""`). -/
structure Env where
  fireblocksApiKey : Option String
  fireblocksSecretKeyPath : Option String

/-- The `Config` class attributes, as computed by the two
`os.getenv(..., "")` calls at module import. -/
structure Config where
  FIREBLOCKS_API_KEY : String
  FIREBLOCKS_SECRET_KEY_PATH : String
deriving DecidableEq, Repr

/-- Attribute initialisation in `app/config.py` lines 14–15. -/
def Config.ofEnv (env : Env) : Config :=
  { FIREBLOCKS_API_KEY := env.fireblocksApiKey.getD ""
    FIREBLOCKS_SECRET_KEY_PATH := env.fireblocksSecretKeyPath.getD "" }

/-- The exceptions `Config.get_secret_key` can raise. -/
inductive ConfigError where
  | valueError (msg : String)
  | fileNotFoundError (msg : String)
deriving DecidableEq, Repr

/-- The filesystem, as a map from path to file contents; `none` means the
path does not exist. -/
def FileSystem : Type := String → Option String

/-- Python `str.strip()`: drop leading and trailing whitespace.
(Structurally recursive so that concrete instances evaluate; Lean's own
`String.trim` goes through `Substring` and does not kernel-reduce.) -/
def pyStrip (s : String) : String :=
  ⟨((s.data.dropWhile Char.isWhitespace).reverse.dropWhile Char.isWhitespace).reverse⟩

/-- `Config.get_secret_key` — `app/config.py` lines 17–29.  Python's
`if not cls.FIREBLOCKS_SECRET_KEY_PATH` is emptiness of the string (an
unset variable was defaulted to `""`); `str.strip()` is `String.trim`. -/
def Config.get_secret_key (cfg : Config) (fs : FileSystem) :
    Except ConfigError String :=
  if cfg.FIREBLOCKS_SECRET_KEY_PATH = "" then
    .error (.valueError "FIREBLOCKS_SECRET_KEY_PATH environment variable is not set")
  else
    match fs cfg.FIREBLOCKS_SECRET_KEY_PATH with
    | none =>
        .error (.fileNotFoundError
          ("Secret key file not found at: " ++ cfg.FIREBLOCKS_SECRET_KEY_PATH))
    | some contents => .ok (pyStrip contents)

/-! ## Client lifecycle managers (`app/fireblocks_client.py`,
`app/fireblocks_sdk_client.py`)

Each manager's mutable class attribute `_client` is passed explicitly as
an `Option` state.  `get_client` returns the handle, the new state, and
whether `_create_client` ran on this call; `close_client` returns the
new state and the list of handles on which `.close()` was invoked. -/

/-- `fireblocks.client_configuration.ClientConfiguration` as built in
`_create_client` (`base_path=BasePath.US`). -/
structure ClientConfiguration where
  api_key : String
  secret_key : String
  base_path : String
deriving DecidableEq, Repr

/-- A `fireblocks.client.Fireblocks` handle, identified by the
configuration it was constructed with. -/
structure Fireblocks where
  configuration : ClientConfiguration
deriving DecidableEq, Repr

/-- `FireblocksClientManager._create_client` — `app/fireblocks_client.py`
lines 22–33.  A failure of `config.get_secret_key` propagates. -/
def FireblocksClientManager.create_client (cfg : Config) (fs : FileSystem) :
    Except ConfigError Fireblocks :=
  (Config.get_secret_key cfg fs).map (fun secret_key =>
    { configuration :=
        { api_key := cfg.FIREBLOCKS_API_KEY
          secret_key := secret_key
          base_path := "US" } })

/-- `FireblocksClientManager.get_client` — `app/fireblocks_client.py`
lines 15–20: construct the client when `_client is None`, else return
the stored one. -/
def FireblocksClientManager.get_client (cfg : Config) (fs : FileSystem)
    (s : Option Fireblocks) :
    Except ConfigError (Fireblocks × Option Fireblocks × Bool) :=
  match s with
  | some c => .ok (c, some c, false)
  | none => (FireblocksClientManager.create_client cfg fs).map (fun c => (c, some c, true))

/-- `FireblocksClientManager.close_client` — `app/fireblocks_client.py`
lines 35–40: call `.close()` on the stored client when present, then set
`_client = None`. -/
def FireblocksClientManager.close_client (s : Option Fireblocks) :
    Option Fireblocks × List Fireblocks :=
  match s with
  | some c => (none, [c])
  | none => (none, [])

/-- A `fireblocks_sdk.FireblocksSDK` handle, identified by its
construction arguments. -/
structure FireblocksSDK where
  private_key : String
  api_key : String
deriving DecidableEq, Repr

/-- `FireblocksSDKClientManager._create_client` —
`app/fireblocks_sdk_client.py` lines 20–30. -/
def FireblocksSDKClientManager.create_client (cfg : Config) (fs : FileSystem) :
    Except ConfigError FireblocksSDK :=
  (Config.get_secret_key cfg fs).map (fun private_key =>
    { private_key := private_key
      api_key := cfg.FIREBLOCKS_API_KEY })

/-- `FireblocksSDKClientManager.get_client` —
`app/fireblocks_sdk_client.py` lines 13–18. -/
def FireblocksSDKClientManager.get_client (cfg : Config) (fs : FileSystem)
    (s : Option FireblocksSDK) :
    Except ConfigError (FireblocksSDK × Option FireblocksSDK × Bool) :=
  match s with
  | some c => .ok (c, some c, false)
  | none => (FireblocksSDKClientManager.create_client cfg fs).map (fun c => (c, some c, true))

/-- `FireblocksSDKClientManager.close_client` —
`app/fireblocks_sdk_client.py` lines 32–36: the SDK generation has no
`.close()`; the stored handle is simply dropped. -/
def FireblocksSDKClientManager.close_client (s : Option FireblocksSDK) :
    Option FireblocksSDK × List FireblocksSDK :=
  match s with
  | some _ => (none, [])
  | none => (none, [])

/-! ## Vault accounts (`app/routes/vault_accounts.py`, `app/models.py`) -/

/-- A `fireblocks.models` vault-asset object as returned inside a vault
account by the new-generation SDK.  `rewards_info` is stored as the dict
its `.to_dict()` yields. -/
structure FBVaultAsset where
  id : String
  total : Option String
  balance : Option String
  available : Option String
  pending : Option String
  frozen : Option String
  locked_amount : Option String
  staked : Option String
  total_staked_cpu : Option String
  total_staked_network : Option String
  self_staked_cpu : Option String
  self_staked_network : Option String
  pending_refund_cpu : Option String
  pending_refund_network : Option String
  block_height : Option String
  block_hash : Option String
  rewards_info : Option Dct
deriving DecidableEq, Repr

/-- A `fireblocks.models.VaultAccount` object (`api_response.data`). -/
structure FBVaultAccount where
  id : String
  name : String
  hidden_on_ui : Option Bool
  auto_fuel : Option Bool
  customer_ref_id : Option String
  assets : Option (List FBVaultAsset)
  tags : Option Dct
deriving DecidableEq, Repr

/-- `app.models.VaultAssetInAccount`. -/
structure VaultAssetInAccount where
  id : String
  total : Option String
  balance : Option String
  available : Option String
  pending : Option String
  frozen : Option String
  locked_amount : Option String
  staked : Option String
  total_staked_cpu : Option String
  total_staked_network : Option String
  self_staked_cpu : Option String
  self_staked_network : Option String
  pending_refund_cpu : Option String
  pending_refund_network : Option String
  block_height : Option String
  block_hash : Option String
  rewards_info : Option Dct
deriving DecidableEq, Repr

/-- `app.models.VaultAccountResponse`. -/
structure VaultAccountResponse where
  id : String
  name : String
  hidden_on_ui : Option Bool
  auto_fuel : Option Bool
  customer_ref_id : Option String
  assets : Option (List VaultAssetInAccount)
  tags : Option Dct
deriving DecidableEq, Repr

/-- The per-asset conversion of `vault_accounts.py` lines 100–121 (the
same comprehension appears at lines 183–204): every field is copied;
`rewards_info` becomes its `.to_dict()` when present, `None`
otherwise. -/
def convertAsset (asset : FBVaultAsset) : VaultAssetInAccount :=
  { id := asset.id
    total := asset.total
    balance := asset.balance
    available := asset.available
    pending := asset.pending
    frozen := asset.frozen
    locked_amount := asset.locked_amount
    staked := asset.staked
    total_staked_cpu := asset.total_staked_cpu
    total_staked_network := asset.total_staked_network
    self_staked_cpu := asset.self_staked_cpu
    self_staked_network := asset.self_staked_network
    pending_refund_cpu := asset.pending_refund_cpu
    pending_refund_network := asset.pending_refund_network
    block_height := asset.block_height
    block_hash := asset.block_hash
    rewards_info := asset.rewards_info }

/-- The `assets` computation of `vault_accounts.py` lines 98–121:
`if vault_account.assets:` is Python truthiness, so both a missing and
an empty asset list leave `assets = None`. -/
def assetsField (assets : Option (List FBVaultAsset)) :
    Option (List VaultAssetInAccount) :=
  match assets with
  | some l => if l.isEmpty then none else some (l.map convertAsset)
  | none => none

/-- The `VaultAccountResponse(...)` construction shared by
`get_vault_account` (lines 124–132) and `create_vault_account`
(lines 207–215). -/
def toVaultAccountResponse (vault_account : FBVaultAccount) : VaultAccountResponse :=
  { id := vault_account.id
    name := vault_account.name
    hidden_on_ui := vault_account.hidden_on_ui
    auto_fuel := vault_account.auto_fuel
    customer_ref_id := vault_account.customer_ref_id
    assets := assetsField vault_account.assets
    tags := vault_account.tags }

/-- `get_vault_account` — `app/routes/vault_accounts.py` lines 81–145.
The vendor call is `fireblocks.vaults.get_vault_account(id).result()`;
on an exception the handler raises 404 when `str(e)` contains `"404"`
or, lower-cased, `"not found"`, and 500 otherwise. -/
def get_vault_account (vault_account_id : String)
    (vendor : String → Except String FBVaultAccount) :
    HResp VaultAccountResponse :=
  match vendor vault_account_id with
  | .ok api_data => .success 200 (toVaultAccountResponse api_data)
  | .error e =>
      if containsSub e "404" || containsSub (pyLower e) "not found" then
        .error 404 ("Vault account with ID \x27" ++ vault_account_id ++ "\x27 not found")
      else
        .error 500 ("Failed to retrieve vault account: " ++ e)

/-- `app.models.CreateVaultAccountRequest` (the validated body). -/
structure CreateVaultAccountRequest where
  name : String
  hidden_on_ui : Bool
  auto_fuel : Bool
deriving DecidableEq, Repr

/-- `fireblocks.models.create_vault_account_request.CreateVaultAccountRequest`
— the object passed to `fireblocks.vaults.create_vault_account`. -/
structure FBCreateVaultAccountRequest where
  name : String
  hidden_on_ui : Bool
  auto_fuel : Bool
deriving DecidableEq, Repr

/-- `create_vault_account` — `app/routes/vault_accounts.py`
lines 155–221: builds the vendor request from the body's three fields,
calls the vendor, and echoes the vendor-returned account (201). -/
def create_vault_account (request : CreateVaultAccountRequest)
    (vendor : FBCreateVaultAccountRequest → Except String FBVaultAccount) :
    HResp VaultAccountResponse × List FBCreateVaultAccountRequest :=
  let fb_request : FBCreateVaultAccountRequest :=
    { name := request.name
      hidden_on_ui := request.hidden_on_ui
      auto_fuel := request.auto_fuel }
  match vendor fb_request with
  | .ok vault_account => (.success 201 (toVaultAccountResponse vault_account), [fb_request])
  | .error e => (.error 500 ("Failed to create vault account: " ++ e), [fb_request])

/-- The params dict of `get_paged_vault_accounts` —
`app/routes/vault_accounts.py` lines 40–52: all eight keys are written,
then entries whose value is `None` are removed. -/
def pagedParams ( namePrefix nameSuffix : Option String)
    (minAmountThreshold : Option Val) (assetId orderBy before after : Option String)
    (limit : Option Int) : List (String × Val) :=
  ([("name_prefix", namePrefix.map Val.str),
    ("name_suffix", nameSuffix.map Val.str),
    ("min_amount_threshold", minAmountThreshold),
    ("asset_id", assetId.map Val.str),
    ("order_by", orderBy.map Val.str),
    ("before", before.map Val.str),
    ("after", after.map Val.str),
    ("limit", limit.map Val.int)] : List (String × Option Val)).filterMap
    (fun p => p.2.map (fun v => (p.1, v)))

/-- `get_paged_vault_accounts` — `app/routes/vault_accounts.py`
lines 21–71 (handler body, after FastAPI query validation).  The vendor
call is `fireblocks.vaults.get_paged_vault_accounts(**params).result()`;
the kwargs dict is returned as the vendor request issued. -/
def get_paged_vault_accounts ( namePrefix nameSuffix : Option String)
    (minAmountThreshold : Option Val) (assetId orderBy before after : Option String)
    (limit : Option Int)
    (vendor : List (String × Val) → Except String (List Dct)) :
    HResp (List Dct) × List (List (String × Val)) :=
  let params := pagedParams namePrefix nameSuffix minAmountThreshold
    assetId orderBy before after limit
  match vendor params with
  | .ok data => (.success 200 data, [params])
  | .error e => (.error 500 ("Failed to fetch vault accounts: " ++ e), [params])

/-! ## Vault assets (`app/routes/vault_assets.py`) -/

/-- `app.models.VaultAssetResponse`.  pydantic's value-type coercion is
not modelled; `id` is whatever `asset_data.get("id", asset_id)`
yields. -/
structure VaultAssetResponse where
  id : Val
  total : Option Val
  available : Option Val
  pending : Option Val
  frozen : Option Val
  locked_amount : Option Val
  staked : Option Val
  block_height : Option Val
  block_hash : Option Val
  additional_data : Option Dct
deriving DecidableEq, Repr

/-- The key list of the dict comprehension at `vault_assets.py`
lines 48–50. -/
def vaultAssetModeledKeys : List String :=
  ["id", "total", "available", "pending", "frozen",
   "lockedAmount", "staked", "blockHeight", "blockHash"]

/-- `get_vault_asset` — `app/routes/vault_assets.py` lines 18–57.  The
vendor call is `fireblocks.get_vault_account_asset(...)`; `id` falls
back to the `asset_id` path parameter when the vendor dict lacks the
key. -/
def get_vault_asset (vault_account_id asset_id : String)
    (vendor : String → String → Except String Dct) :
    HResp VaultAssetResponse :=
  match vendor vault_account_id asset_id with
  | .ok asset_data =>
      .success 200
        { id := dgetD asset_data "id" (.str asset_id)
          total := dget asset_data "total"
          available := dget asset_data "available"
          pending := dget asset_data "pending"
          frozen := dget asset_data "frozen"
          locked_amount := dget asset_data "lockedAmount"
          staked := dget asset_data "staked"
          block_height := dget asset_data "blockHeight"
          block_hash := dget asset_data "blockHash"
          additional_data :=
            some (List.filter (fun p => !(vaultAssetModeledKeys.contains p.1)) asset_data) }
  | .error e => .error 500 ("Failed to get vault asset: " ++ e)

/-! ## Vault asset addresses (`app/routes/vault_asset_addresses.py`) -/

/-- The pagination params dict of `vault_asset_addresses.py`
lines 36–45: `if before:` / `if after:` / `if limit:` are Python
truthiness, so an empty string (or a zero limit) is skipped; the
subsequent `is not None` filter is then a no-op. -/
def addressesParams (before after : Option String) (limit : Option Int) :
    List (String × Val) :=
  (match before with
   | some b => if b = "" then [] else [("before", Val.str b)]
   | none => []) ++
  (match after with
   | some a => if a = "" then [] else [("after", Val.str a)]
   | none => []) ++
  (match limit with
   | some n => if n = 0 then [] else [("limit", Val.int n)]
   | none => [])

/-- The full vendor request of
`fireblocks.vaults.get_vault_account_asset_addresses_paginated`:
the two path arguments plus the pagination kwargs. -/
structure AddressesVendorRequest where
  vault_account_id : String
  asset_id : String
  params : List (String × Val)
deriving DecidableEq, Repr

/-- `get_vault_account_asset_addresses` —
`app/routes/vault_asset_addresses.py` lines 19–65 (handler body,
after FastAPI query validation). -/
def get_vault_account_asset_addresses (vault_account_id asset_id : String)
    (before after : Option String) (limit : Option Int)
    (vendor : AddressesVendorRequest → Except String (List Dct)) :
    HResp (List Dct) × List AddressesVendorRequest :=
  let req : AddressesVendorRequest :=
    { vault_account_id := vault_account_id
      asset_id := asset_id
      params := addressesParams before after limit }
  match vendor req with
  | .ok data => (.success 200 data, [req])
  | .error e => (.error 500 ("Failed to fetch vault account asset addresses: " ++ e), [req])

/-! ## Transactions (`app/routes/transactions.py`) -/

/-- `fireblocks_sdk.TransferPeerPath` — always
`("VAULT_ACCOUNT", source_vault_account_id)` here. -/
structure TransferPeerPath where
  peer_type : String
  id : String
deriving DecidableEq, Repr

/-- `fireblocks_sdk.DestinationTransferPeerPath`. -/
structure DestinationTransferPeerPath where
  peer_type : String
  id : String
deriving DecidableEq, Repr

/-- `app.models.CreateTransactionRequest` (the validated body). -/
structure CreateTransactionRequest where
  asset_id : String
  source_vault_account_id : String
  destination_vault_account_id : String
  amount : String
  note : Option String
  fee_level : Option String
deriving DecidableEq, Repr

/-- The keyword arguments of the `fireblocks.create_transaction` call at
`transactions.py` lines 38–46. -/
structure CreateTransactionArgs where
  asset_id : String
  amount : String
  source : TransferPeerPath
  destination : DestinationTransferPeerPath
  tx_type : String
  note : Option String
  fee_level : Option String
deriving DecidableEq, Repr

/-- `app.models.TransactionResponse`.  `id` and `status` are required by
the pydantic model; the remaining fields are optional. -/
structure TransactionResponse where
  id : Val
  status : Val
  asset_id : Option Val
  amount : Option Val
  source : Option Val
  destination : Option Val
  fee : Option Val
  network_fee : Option Val
  created_at : Option Val
  last_updated : Option Val
  tx_hash : Option Val
  sub_status : Option Val
  additional_data : Option Dct
deriving DecidableEq, Repr

/-- The key list of the dict comprehension at `transactions.py`
lines 63–66. -/
def transactionModeledKeys : List String :=
  ["id", "status", "assetId", "amount", "source", "destination", "fee",
   "networkFee", "createdAt", "lastUpdated", "txHash", "subStatus"]

/-- `create_transaction` — `app/routes/transactions.py` lines 18–73.
The vendor call is `fireblocks.create_transaction(**kwargs)`.  When the
vendor dict lacks `id` or `status`, the `TransactionResponse(...)`
construction raises a pydantic validation error inside the `try`, which
the broad `except` turns into a 500; value-type coercion beyond
presence of the required keys is not modelled. -/
def create_transaction (request : CreateTransactionRequest)
    (vendor : CreateTransactionArgs → Except String Dct) :
    HResp TransactionResponse × List CreateTransactionArgs :=
  let args : CreateTransactionArgs :=
    { asset_id := request.asset_id
      amount := request.amount
      source := { peer_type := "VAULT_ACCOUNT", id := request.source_vault_account_id }
      destination := { peer_type := "VAULT_ACCOUNT", id := request.destination_vault_account_id }
      tx_type := "TRANSFER"
      note := request.note
      fee_level := request.fee_level }
  match vendor args with
  | .ok tx_data =>
      match dget tx_data "id", dget tx_data "status" with
      | some idv, some statusv =>
          (.success 201
            { id := idv
              status := statusv
              asset_id := dget tx_data "assetId"
              amount := dget tx_data "amount"
              source := dget tx_data "source"
              destination := dget tx_data "destination"
              fee := dget tx_data "fee"
              network_fee := dget tx_data "networkFee"
              created_at := dget tx_data "createdAt"
              last_updated := dget tx_data "lastUpdated"
              tx_hash := dget tx_data "txHash"
              sub_status := dget tx_data "subStatus"
              additional_data :=
                some (List.filter (fun p => !(transactionModeledKeys.contains p.1)) tx_data) },
           [args])
      | _, _ =>
          (.error 500 "Failed to create transaction: validation error for TransactionResponse",
           [args])
  | .error e => (.error 500 ("Failed to create transaction: " ++ e), [args])

/-! ## Vault wallets (`app/routes/vault_wallets.py`) -/

/-- `app.models.CreateVaultWalletRequest` (the validated body). -/
structure CreateVaultWalletRequest where
  vault_account_id : String
  asset_id : String
deriving DecidableEq, Repr

/-- `app.models.VaultWalletResponse`. -/
structure VaultWalletResponse where
  id : Val
  address : Option Val
  legacy_address : Option Val
  tag : Option Val
deriving DecidableEq, Repr

/-- `create_vault_wallet` — `app/routes/vault_wallets.py` lines 18–46.
The vendor call is `fireblocks.create_vault_asset(...)`; `id` falls back
to the request's `vault_account_id` when the vendor dict lacks the
key. -/
def create_vault_wallet (request : CreateVaultWalletRequest)
    (vendor : String → String → Except String Dct) :
    HResp VaultWalletResponse × List (String × String) :=
  match vendor request.vault_account_id request.asset_id with
  | .ok wallet_data =>
      (.success 201
        { id := dgetD wallet_data "id" (.str request.vault_account_id)
          address := dget wallet_data "address"
          legacy_address := dget wallet_data "legacyAddress"
          tag := dget wallet_data "tag" },
       [(request.vault_account_id, request.asset_id)])
  | .error e =>
      (.error 500 ("Failed to create vault wallet: " ++ e),
       [(request.vault_account_id, request.asset_id)])

/-! ## FastAPI request-validation layer

The query and body constraints are declared in the source
(`Query(100, ge=1, le=500)` in `vault_accounts.py` line 29 and
`vault_asset_addresses.py` line 24, `Field(..., min_length=1)` in
`models.py` line 9); their enforcement is FastAPI/pydantic's: a request
violating a constraint is answered with status 422
(`RequestValidationError`, FastAPI's default, unmodified by this
application) and the handler — hence the vendor — is never reached.  A
raw value of `none` models a parameter absent from the request. -/

/-- The `ge=1, le=500` bounds on the `limit` query parameter. -/
def validLimit : Option Int → Bool
  | none => true
  | some n => decide (1 ≤ n) && decide (n ≤ 500)

/-- `GET /vault-accounts` as served: FastAPI validates `limit`, applies
the `Query(100, ...)` default, then runs `get_paged_vault_accounts`. -/
def get_paged_vault_accounts_route ( namePrefix nameSuffix : Option String)
    (minAmountThreshold : Option Val) (assetId orderBy before after : Option String)
    (rawLimit : Option Int)
    (vendor : List (String × Val) → Except String (List Dct)) :
    HResp (List Dct) × List (List (String × Val)) :=
  if validLimit rawLimit then
    get_paged_vault_accounts namePrefix nameSuffix minAmountThreshold
      assetId orderBy before after (some (rawLimit.getD 100)) vendor
  else
    (.error 422 "request validation error: limit", [])

/-- `GET /vault-assets/{vault_account_id}/{asset_id}/addresses` as
served: FastAPI validates `limit`, applies the `Query(100, ...)`
default, then runs `get_vault_account_asset_addresses`. -/
def get_vault_account_asset_addresses_route (vault_account_id asset_id : String)
    (before after : Option String) (rawLimit : Option Int)
    (vendor : AddressesVendorRequest → Except String (List Dct)) :
    HResp (List Dct) × List AddressesVendorRequest :=
  if validLimit rawLimit then
    get_vault_account_asset_addresses vault_account_id asset_id
      before after (some (rawLimit.getD 100)) vendor
  else
    (.error 422 "request validation error: limit", [])

/-- A raw `POST /vault-accounts` body before pydantic validation; `none`
models an absent member. -/
structure RawCreateVaultAccountBody where
  name : Option String
  hidden_on_ui : Option Bool
  auto_fuel : Option Bool
deriving DecidableEq, Repr

/-- pydantic validation of `app.models.CreateVaultAccountRequest`:
`name` is required with `min_length=1`; the two flags default to
`False`. -/
def validateCreateVaultAccountBody (b : RawCreateVaultAccountBody) :
    Except String CreateVaultAccountRequest :=
  match b.name with
  | none => .error "field required: name"
  | some n =>
      if n.length < 1 then .error "string should have at least 1 character: name"
      else .ok
        { name := n
          hidden_on_ui := b.hidden_on_ui.getD false
          auto_fuel := b.auto_fuel.getD false }

/-- `POST /vault-accounts` as served: pydantic body validation, then the
`create_vault_account` handler. -/
def create_vault_account_route (b : RawCreateVaultAccountBody)
    (vendor : FBCreateVaultAccountRequest → Except String FBVaultAccount) :
    HResp VaultAccountResponse × List FBCreateVaultAccountRequest :=
  match validateCreateVaultAccountBody b with
  | .error msg => (.error 422 ("request validation error: " ++ msg), [])
  | .ok request => create_vault_account request vendor

/-! ## Accessors used in the statements -/

/-- The explicitly modeled vendor keys of `TokenResponse`
(`tokens.py` lines 106–110 read `id`, `status`, `assetId`,
`blockchainId`, `vaultAccountId`). -/
def tokenModeledKeys : List String :=
  ["id", "status", "assetId", "blockchainId", "vaultAccountId"]

/-- The `additional_data` bucket of a token response, when it is a
success. -/
def tokenRespBucket : HResp TokenResponse → Option Dct
  | .success _ b => b.additional_data
  | .error _ _ => none

/-- The `additional_data` bucket of a transaction response, when it is a
success. -/
def txRespBucket : HResp TransactionResponse → Option Dct
  | .success _ b => b.additional_data
  | .error _ _ => none

/-- The `additional_data` bucket of a vault-asset response, when it is a
success. -/
def assetRespBucket : HResp VaultAssetResponse → Option Dct
  | .success _ b => b.additional_data
  | .error _ _ => none

/-- The `name` field of a vault-account response, when it is a
success. -/
def vaRespName : HResp VaultAccountResponse → Option String
  | .success _ b => some b.name
  | .error _ _ => none

/-- The `id` field of a vault-wallet response, when it is a success. -/
def walletRespId : HResp VaultWalletResponse → Option Val
  | .success _ b => some b.id
  | .error _ _ => none

/-- The `id` field of a vault-asset response, when it is a success. -/
def assetRespId : HResp VaultAssetResponse → Option Val
  | .success _ b => some b.id
  | .error _ _ => none

/-! ## Helper lemmas -/

/-- A string is a substring of anything it suffixes. -/
theorem containsSub_append_left (p e : String) : containsSub (p ++ e) e = true := by
  have h : (p ++ e).toList = p.toList ++ e.toList := by
    simp [String.toList]
  simp only [containsSub, h, decide_eq_true_eq]
  exact (List.suffix_append p.toList e.toList).isInfix

/-! ## C6: secret loading -/

/-- C6: `Config.get_secret_key` raises a `ValueError` when the
secret-key-path environment value is unset (so the class attribute was
defaulted to `""`), raises a `FileNotFoundError` when the path is set
but no file exists there, and otherwise returns the file's contents
with leading and trailing whitespace stripped. -/
theorem c6_get_secret_key (env : Env) (cfg : Config) (fs : FileSystem)
    (contents : String) :
    (env.fireblocksSecretKeyPath = none →
      Config.get_secret_key (Config.ofEnv env) fs =
        .error (.valueError "FIREBLOCKS_SECRET_KEY_PATH environment variable is not set")) ∧
    (cfg.FIREBLOCKS_SECRET_KEY_PATH = "" →
      Config.get_secret_key cfg fs =
        .error (.valueError "FIREBLOCKS_SECRET_KEY_PATH environment variable is not set")) ∧
    (cfg.FIREBLOCKS_SECRET_KEY_PATH ≠ "" →
      fs cfg.FIREBLOCKS_SECRET_KEY_PATH = none →
      Config.get_secret_key cfg fs =
        .error (.fileNotFoundError
          ("Secret key file not found at: " ++ cfg.FIREBLOCKS_SECRET_KEY_PATH))) ∧
    (cfg.FIREBLOCKS_SECRET_KEY_PATH ≠ "" →
      fs cfg.FIREBLOCKS_SECRET_KEY_PATH = some contents →
      Config.get_secret_key cfg fs = .ok (pyStrip contents)) := by
  refine ⟨fun h1 => ?_, fun h2 => ?_, fun h3 h4 => ?_, fun h5 h6 => ?_⟩
  · simp [Config.get_secret_key, Config.ofEnv, h1]
  · simp [Config.get_secret_key, h2]
  · simp [Config.get_secret_key, h3, h4]
  · simp [Config.get_secret_key, h5, h6]

/-- C6 witness: the three outcomes at concrete inputs. -/
theorem c6_get_secret_key_witness :
    (Config.get_secret_key (Config.ofEnv ⟨some "k", none⟩) (fun _ => none) =
      .error (.valueError "FIREBLOCKS_SECRET_KEY_PATH environment variable is not set")) ∧
    (Config.get_secret_key ⟨"k", "p"⟩ (fun _ => none) =
      .error (.fileNotFoundError "Secret key file not found at: p")) ∧
    (Config.get_secret_key ⟨"k", "p"⟩ (fun _ => some " sec \n") = .ok "sec") := by
  refine ⟨(c6_get_secret_key ⟨some "k", none⟩ ⟨"k", "p"⟩ (fun _ => none) "").1 rfl, ?_, ?_⟩
  · exact (c6_get_secret_key ⟨some "k", none⟩ ⟨"k", "p"⟩ (fun _ => none) "").2.2.1
      (by decide) rfl
  · have h := (c6_get_secret_key ⟨some "k", none⟩ ⟨"k", "p"⟩
      (fun _ => some " sec \n") " sec \n").2.2.2 (by decide) rfl
    have ht : pyStrip " sec \n" = "sec" := by decide
    rw [ht] at h
    exact h

/-! ## C7: lazy singleton construction -/

/-- C7: for both lifecycle managers, a successful `get_client` from the
uninitialized state constructs the client (and stores it), and any
`get_client` from the state a successful call left behind returns the
exact same handle, the same state, and performs no construction. -/
theorem c7_get_client_singleton (cfg : Config) (fs : FileSystem) :
    (∀ s h s2 b, FireblocksClientManager.get_client cfg fs s = .ok (h, s2, b) →
      FireblocksClientManager.get_client cfg fs s2 = .ok (h, s2, false)) ∧
    (∀ h s2 b, FireblocksClientManager.get_client cfg fs none = .ok (h, s2, b) →
      b = true ∧ s2 = some h) ∧
    (∀ s h s2 b, FireblocksSDKClientManager.get_client cfg fs s = .ok (h, s2, b) →
      FireblocksSDKClientManager.get_client cfg fs s2 = .ok (h, s2, false)) ∧
    (∀ h s2 b, FireblocksSDKClientManager.get_client cfg fs none = .ok (h, s2, b) →
      b = true ∧ s2 = some h) := by
  refine ⟨fun s h s2 b hc => ?_, fun h s2 b hc => ?_,
    fun s h s2 b hc => ?_, fun h s2 b hc => ?_⟩
  · cases s with
    | some c =>
        simp [FireblocksClientManager.get_client] at hc
        obtain ⟨h1, h2, h3⟩ := hc
        subst_vars
        rfl
    | none =>
        cases hcr : FireblocksClientManager.create_client cfg fs with
        | ok c =>
            simp [FireblocksClientManager.get_client, hcr, Except.map] at hc
            obtain ⟨h1, h2, h3⟩ := hc
            subst_vars
            rfl
        | error e =>
            simp [FireblocksClientManager.get_client, hcr, Except.map] at hc
  · cases hcr : FireblocksClientManager.create_client cfg fs with
    | ok c =>
        simp [FireblocksClientManager.get_client, hcr, Except.map] at hc
        obtain ⟨h1, h2, h3⟩ := hc
        subst_vars
        exact ⟨rfl, rfl⟩
    | error e =>
        simp [FireblocksClientManager.get_client, hcr, Except.map] at hc
  · cases s with
    | some c =>
        simp [FireblocksSDKClientManager.get_client] at hc
        obtain ⟨h1, h2, h3⟩ := hc
        subst_vars
        rfl
    | none =>
        cases hcr : FireblocksSDKClientManager.create_client cfg fs with
        | ok c =>
            simp [FireblocksSDKClientManager.get_client, hcr, Except.map] at hc
            obtain ⟨h1, h2, h3⟩ := hc
            subst_vars
            rfl
        | error e =>
            simp [FireblocksSDKClientManager.get_client, hcr, Except.map] at hc
  · cases hcr : FireblocksSDKClientManager.create_client cfg fs with
    | ok c =>
        simp [FireblocksSDKClientManager.get_client, hcr, Except.map] at hc
        obtain ⟨h1, h2, h3⟩ := hc
        subst_vars
        exact ⟨rfl, rfl⟩
    | error e =>
        simp [FireblocksSDKClientManager.get_client, hcr, Except.map] at hc

/-- C7 witness: a successful first call from the uninitialized state
constructs and stores the handle, and a second call returns it
unchanged without reconstruction. -/
theorem c7_get_client_singleton_witness :
    (FireblocksClientManager.get_client ⟨"k", "p"⟩ (fun _ => some "s") none =
      .ok (⟨⟨"k", "s", "US"⟩⟩, some ⟨⟨"k", "s", "US"⟩⟩, true)) ∧
    (FireblocksClientManager.get_client ⟨"k", "p"⟩ (fun _ => some "s")
        (some ⟨⟨"k", "s", "US"⟩⟩) =
      .ok (⟨⟨"k", "s", "US"⟩⟩, some ⟨⟨"k", "s", "US"⟩⟩, false)) := by
  refine ⟨rfl, ?_⟩
  exact (c7_get_client_singleton ⟨"k", "p"⟩ (fun _ => some "s")).1
    none ⟨⟨"k", "s", "US"⟩⟩ (some ⟨⟨"k", "s", "US"⟩⟩) true rfl

/-! ## C8: shutdown -/

/-- C8: for both lifecycle managers, `close_client` always leaves the
stored handle `None`; from the uninitialized state it is a no-op
(state unchanged, nothing closed); from an initialized state the
first-generation manager invokes `.close()` on exactly the stored
handle, while the SDK-generation manager merely drops its handle. -/
theorem c8_close_client (s : Option Fireblocks) (t : Option FireblocksSDK) :
    ((FireblocksClientManager.close_client s).1 = none ∧
      (FireblocksSDKClientManager.close_client t).1 = none) ∧
    (s = none → FireblocksClientManager.close_client s = (none, [])) ∧
    (t = none → FireblocksSDKClientManager.close_client t = (none, [])) ∧
    (∀ c, s = some c → FireblocksClientManager.close_client s = (none, [c])) ∧
    (∀ c, t = some c → FireblocksSDKClientManager.close_client t = (none, [])) := by
  refine ⟨⟨?_, ?_⟩, fun h => ?_, fun h => ?_, fun c h => ?_, fun c h => ?_⟩
  · cases s <;> rfl
  · cases t <;> rfl
  · rw [h]; rfl
  · rw [h]; rfl
  · rw [h]; rfl
  · rw [h]; rfl

/-- C8 witness: both managers at both an empty and a populated state. -/
theorem c8_close_client_witness :
    (FireblocksClientManager.close_client none = (none, []) ∧
      FireblocksSDKClientManager.close_client none = (none, [])) ∧
    (FireblocksClientManager.close_client (some ⟨⟨"k", "s", "US"⟩⟩) =
      (none, [⟨⟨"k", "s", "US"⟩⟩]) ∧
      FireblocksSDKClientManager.close_client (some ⟨"s", "k"⟩) = (none, [])) := by
  refine ⟨⟨?_, ?_⟩, ?_, ?_⟩
  · exact (c8_close_client none none).2.1 rfl
  · exact (c8_close_client none none).2.2.1 rfl
  · exact (c8_close_client (some ⟨⟨"k", "s", "US"⟩⟩) none).2.2.2.1 _ rfl
  · exact (c8_close_client none (some ⟨"s", "k"⟩)).2.2.2.2 _ rfl

/-! ## C10: id fallbacks -/

/-- C10: when the vendor dict of `POST /vault-wallets` lacks an `id`
key, the response's `id` is the request's `vault_account_id`; when the
vendor dict of `GET /vault-assets/{vault_account_id}/{asset_id}` lacks
an `id` key, the response's `id` is the `asset_id` path parameter. -/
theorem c10_id_fallback (wreq : CreateVaultWalletRequest)
    (vid aid : String) (d : Dct) (hd : dget d "id" = none) :
    walletRespId (create_vault_wallet wreq (fun _ _ => .ok d)).1 =
      some (.str wreq.vault_account_id) ∧
    assetRespId (get_vault_asset vid aid (fun _ _ => .ok d)) =
      some (.str aid) := by
  constructor
  · simp [create_vault_wallet, walletRespId, dgetD, hd]
  · simp [get_vault_asset, assetRespId, dgetD, hd]

/-- C10 witness: a vendor dict with no `id` key. -/
theorem c10_id_fallback_witness :
    walletRespId (create_vault_wallet ⟨"va-7", "BTC"⟩
        (fun _ _ => .ok [("address", .str "bc1q")])).1 = some (.str "va-7") ∧
    assetRespId (get_vault_asset "va-7" "BTC"
        (fun _ _ => .ok [("total", .str "1")])) = some (.str "BTC") := by
  constructor
  · exact (c10_id_fallback ⟨"va-7", "BTC"⟩ "va-7" "BTC"
      [("address", .str "bc1q")] (by decide)).1
  · exact (c10_id_fallback ⟨"va-7", "BTC"⟩ "va-7" "BTC"
      [("total", .str "1")] (by decide)).2

/-! ## C1: token parameter mutual exclusion -/

/-- C1: a `POST /tokens` request with both or neither of `evm_params`
and `stellar_ripple_params` yields HTTP 400 with no vendor call; with
exactly one of them set, the vendor is called once, with the
corresponding parameter shape (EVM resp. Stellar/Ripple) built from the
request. -/
theorem c1_token_params_mutual_exclusion (request : CreateTokenRequest)
    (vendor : SDKCreateTokenRequest → Except String Dct) :
    ((request.evm_params = none ∧ request.stellar_ripple_params = none) ∨
     (request.evm_params ≠ none ∧ request.stellar_ripple_params ≠ none) →
      (issue_new_token request vendor).1.status = 400 ∧
      (issue_new_token request vendor).2 = []) ∧
    (∀ evm, request.evm_params = some evm → request.stellar_ripple_params = none →
      (issue_new_token request vendor).2 =
        [{ vault_account_id := request.vault_account_id
           create_params := .evm
             { contract_id := evm.contract_id
               deploy_function_params := deployParamsField evm.deploy_function_params }
           asset_id := request.asset_id
           blockchain_id := request.blockchain_id
           display_name := request.display_name }]) ∧
    (∀ sr, request.evm_params = none → request.stellar_ripple_params = some sr →
      (issue_new_token request vendor).2 =
        [{ vault_account_id := request.vault_account_id
           create_params := .stellarRipple
             { issuer_address := sr.issuer_address
               symbol := sr.symbol
               name := sr.name }
           asset_id := request.asset_id
           blockchain_id := request.blockchain_id
           display_name := request.display_name }]) := by
  refine ⟨fun hboth => ?_, fun evm hevm hsr => ?_, fun sr hevm hsr => ?_⟩
  · rcases hboth with ⟨h1, h2⟩ | ⟨h1, h2⟩
    · simp [issue_new_token, h1, h2, HResp.status]
    · rcases he : request.evm_params with _ | evm
      · exact absurd he h1
      · rcases hs : request.stellar_ripple_params with _ | sr
        · exact absurd hs h2
        · simp [issue_new_token, he, hs, HResp.status]
  · cases hv : vendor
      { vault_account_id := request.vault_account_id
        create_params := .evm
          { contract_id := evm.contract_id
            deploy_function_params := deployParamsField evm.deploy_function_params }
        asset_id := request.asset_id
        blockchain_id := request.blockchain_id
        display_name := request.display_name } with
    | ok d => simp [issue_new_token, hevm, hsr, hv]
    | error er => simp [issue_new_token, hevm, hsr, hv]
  · cases hv : vendor
      { vault_account_id := request.vault_account_id
        create_params := .stellarRipple
          { issuer_address := sr.issuer_address
            symbol := sr.symbol
            name := sr.name }
        asset_id := request.asset_id
        blockchain_id := request.blockchain_id
        display_name := request.display_name } with
    | ok d => simp [issue_new_token, hevm, hsr, hv]
    | error er => simp [issue_new_token, hevm, hsr, hv]

/-- C1 witness: the neither-set request is rejected with 400 and no
vendor call; a Stellar/Ripple-only request reaches the vendor with the
Stellar/Ripple shape; an EVM-only request whose `deploy_function_params`
is the empty list reaches the vendor with `deploy_function_params=None`
(the truthiness guard of `tokens.py` line 67). -/
theorem c1_token_params_witness :
    ((issue_new_token ⟨"v1", none, none, none, none, none⟩
        (fun _ => .ok [])).1.status = 400 ∧
     (issue_new_token ⟨"v1", none, none, none, none, none⟩
        (fun _ => .ok [])).2 = []) ∧
    (issue_new_token ⟨"v1", none, none, none, none, some ⟨some "ia", some "SYM", none⟩⟩
        (fun _ => .ok [])).2 =
      [⟨"v1", .stellarRipple ⟨some "ia", some "SYM", none⟩, none, none, none⟩] ∧
    (issue_new_token ⟨"v1", none, none, none, some ⟨"ct-1", some []⟩, none⟩
        (fun _ => .ok [])).2 =
      [⟨"v1", .evm ⟨"ct-1", none⟩, none, none, none⟩] := by
  refine ⟨?_, ?_, ?_⟩
  · exact (c1_token_params_mutual_exclusion ⟨"v1", none, none, none, none, none⟩
      (fun _ => .ok [])).1 (Or.inl ⟨rfl, rfl⟩)
  · exact (c1_token_params_mutual_exclusion
      ⟨"v1", none, none, none, none, some ⟨some "ia", some "SYM", none⟩⟩
      (fun _ => .ok [])).2.2 ⟨some "ia", some "SYM", none⟩ rfl rfl
  · exact (c1_token_params_mutual_exclusion
      ⟨"v1", none, none, none, some ⟨"ct-1", some []⟩, none⟩
      (fun _ => .ok [])).2.1 ⟨"ct-1", some []⟩ rfl rfl

/-! ## C2: vendor error mapping -/

/-- C2: on `GET /vault-accounts/{id}`, a vendor exception whose message
contains `"404"` or, case-insensitively, `"not found"` yields HTTP 404;
any other vendor exception there — and any vendor exception on every
other route — yields HTTP 500 with the stringified exception message
contained in the response detail.  (On `POST /tokens` the vendor can
only raise once it has been called, hence the non-empty-call-list
hypothesis there.) -/
theorem c2_vendor_error_mapping (e vid aid : String)
    (treq : CreateTokenRequest) (txreq : CreateTransactionRequest)
    (wreq : CreateVaultWalletRequest) (careq : CreateVaultAccountRequest)
    ( namePrefix nameSuffix : Option String) (mat : Option Val)
    (assetId orderBy before after : Option String) (limit : Option Int) :
    ((containsSub e "404" || containsSub (pyLower e) "not found") = true →
      (get_vault_account vid (fun _ => .error e)).status = 404) ∧
    ((containsSub e "404" || containsSub (pyLower e) "not found") = false →
      (get_vault_account vid (fun _ => .error e)).status = 500 ∧
      containsSub (get_vault_account vid (fun _ => .error e)).detail e = true) ∧
    ((create_transaction txreq (fun _ => .error e)).1.status = 500 ∧
      containsSub (create_transaction txreq (fun _ => .error e)).1.detail e = true) ∧
    ((get_vault_asset vid aid (fun _ _ => .error e)).status = 500 ∧
      containsSub (get_vault_asset vid aid (fun _ _ => .error e)).detail e = true) ∧
    ((create_vault_wallet wreq (fun _ _ => .error e)).1.status = 500 ∧
      containsSub (create_vault_wallet wreq (fun _ _ => .error e)).1.detail e = true) ∧
    ((create_vault_account careq (fun _ => .error e)).1.status = 500 ∧
      containsSub (create_vault_account careq (fun _ => .error e)).1.detail e = true) ∧
    ((get_paged_vault_accounts namePrefix nameSuffix mat assetId orderBy
        before after limit (fun _ => .error e)).1.status = 500 ∧
      containsSub (get_paged_vault_accounts namePrefix nameSuffix mat assetId orderBy
        before after limit (fun _ => .error e)).1.detail e = true) ∧
    ((get_vault_account_asset_addresses vid aid before after limit
        (fun _ => .error e)).1.status = 500 ∧
      containsSub (get_vault_account_asset_addresses vid aid before after limit
        (fun _ => .error e)).1.detail e = true) ∧
    ((issue_new_token treq (fun _ => .error e)).2 ≠ [] →
      (issue_new_token treq (fun _ => .error e)).1.status = 500 ∧
      containsSub (issue_new_token treq (fun _ => .error e)).1.detail e = true) := by
  refine ⟨fun hmatch => ?_, fun hnomatch => ?_, ?_, ?_, ?_, ?_, ?_, ?_, fun hcalls => ?_⟩
  · simp [get_vault_account, hmatch, HResp.status]
  · simp [get_vault_account, hnomatch, HResp.status, HResp.detail]
    exact containsSub_append_left "Failed to retrieve vault account: " e
  · exact ⟨rfl, containsSub_append_left "Failed to create transaction: " e⟩
  · exact ⟨rfl, containsSub_append_left "Failed to get vault asset: " e⟩
  · exact ⟨rfl, containsSub_append_left "Failed to create vault wallet: " e⟩
  · exact ⟨rfl, containsSub_append_left "Failed to create vault account: " e⟩
  · exact ⟨rfl, containsSub_append_left "Failed to fetch vault accounts: " e⟩
  · exact ⟨rfl, containsSub_append_left "Failed to fetch vault account asset addresses: " e⟩
  · rcases hevm : treq.evm_params with _ | evm <;>
      rcases hsr : treq.stellar_ripple_params with _ | sr
    · simp [issue_new_token, hevm, hsr] at hcalls
    · refine ⟨?_, ?_⟩ <;>
        simp [issue_new_token, hevm, hsr, HResp.status, HResp.detail,
          containsSub_append_left]
    · refine ⟨?_, ?_⟩ <;>
        simp [issue_new_token, hevm, hsr, HResp.status, HResp.detail,
          containsSub_append_left]
    · simp [issue_new_token, hevm, hsr] at hcalls

/-- C2 witness: a matching vendor error yields 404; a non-matching one
yields 500 with the message embedded in the detail. -/
theorem c2_vendor_error_mapping_witness :
    (get_vault_account "does-not-exist"
      (fun _ => .error "Vault account not found")).status = 404 ∧
    (get_vault_account "x" (fun _ => .error "boom")).status = 500 ∧
    containsSub (get_vault_account "x" (fun _ => .error "boom")).detail "boom" = true := by
  refine ⟨?_, ?_⟩
  · exact (c2_vendor_error_mapping "Vault account not found" "does-not-exist" "a"
      ⟨"v", none, none, none, none, none⟩ ⟨"a", "s", "d", "1", none, none⟩
      ⟨"v", "a"⟩ ⟨"n", false, false⟩ none none none none none none none none).1
      (by decide)
  · exact (c2_vendor_error_mapping "boom" "x" "a"
      ⟨"v", none, none, none, none, none⟩ ⟨"a", "s", "d", "1", none, none⟩
      ⟨"v", "a"⟩ ⟨"n", false, false⟩ none none none none none none none none).2.1
      (by decide)

/-! ## C3: additional_data buckets -/

/-- C3 counterexample: on `POST /tokens` the handler sets
`additional_data=token_data` — the entire vendor dict — so a vendor dict
that holds the explicitly modeled key `id` puts that key in the bucket,
contradicting the claim that the bucket contains no explicitly modeled
field. -/
theorem c3_counterexample :
    tokenRespBucket (issue_new_token
        ⟨"v1", none, none, none, none, some ⟨none, none, none⟩⟩
        (fun _ => .ok [("id", .str "t1")])).1 = some [("id", .str "t1")] ∧
    "id" ∈ tokenModeledKeys := by
  exact ⟨rfl, by decide⟩

/-- C3 (amended): on `POST /transactions` and
`GET /vault-assets/{vaultAccountId}/{assetId}`, a successful response's
bucket holds exactly the vendor entries whose key is not explicitly
modeled; on `POST /tokens`, the bucket is the entire vendor dict,
explicitly modeled fields included. -/
theorem c3_additional_data (txreq : CreateTransactionRequest)
    (vid aid : String) (treq : CreateTokenRequest) (d : Dct) :
    (∀ b, txRespBucket (create_transaction txreq (fun _ => .ok d)).1 = some b →
      ∀ k v, (k, v) ∈ b ↔ ((k, v) ∈ d ∧ k ∉ transactionModeledKeys)) ∧
    (∀ b, assetRespBucket (get_vault_asset vid aid (fun _ _ => .ok d)) = some b →
      ∀ k v, (k, v) ∈ b ↔ ((k, v) ∈ d ∧ k ∉ vaultAssetModeledKeys)) ∧
    (∀ b, tokenRespBucket (issue_new_token treq (fun _ => .ok d)).1 = some b →
      b = d) := by
  refine ⟨fun b hb k v => ?_, fun b hb k v => ?_, fun b hb => ?_⟩
  · rcases hid : dget d "id" with _ | idv <;>
      rcases hst : dget d "status" with _ | stv <;>
      simp [create_transaction, txRespBucket, hid, hst] at hb
    subst hb
    simp [List.mem_filter]
  · simp [get_vault_asset, assetRespBucket] at hb
    subst hb
    simp [List.mem_filter]
  · rcases hevm : treq.evm_params with _ | evm <;>
      rcases hsr : treq.stellar_ripple_params with _ | sr <;>
      simp [issue_new_token, tokenRespBucket, hevm, hsr] at hb <;>
      exact hb.symm

/-- C3 witness: the transaction bucket at a concrete vendor dict keeps
the unmodeled entry and drops the modeled ones. -/
theorem c3_additional_data_witness :
    ("foo", Val.int 1) ∈ ([("foo", Val.int 1)] : Dct) ↔
      (("foo", Val.int 1) ∈
        ([("id", Val.str "t"), ("status", Val.str "S"), ("foo", Val.int 1)] : Dct) ∧
       "foo" ∉ transactionModeledKeys) :=
  (c3_additional_data ⟨"BTC", "s", "d", "1", none, none⟩ "v" "a"
      ⟨"v1", none, none, none, none, none⟩
      [("id", Val.str "t"), ("status", Val.str "S"), ("foo", Val.int 1)]).1
    [("foo", Val.int 1)] (by decide) "foo" (Val.int 1)

/-! ## C4: vault-account creation echo -/

/-- C4 counterexample: the 201 response of `POST /vault-accounts` echoes
the vendor-returned account, not the request — when the vendor answers
the request named `"Ops"` with an account named `"X"`, the 201 body's
name is `"X"`, not the request's name. -/
theorem c4_counterexample :
    (create_vault_account ⟨"Ops", false, true⟩
        (fun _ => .ok ⟨"id-1", "X", some true, some false, none, none, none⟩)).1.status
      = 201 ∧
    vaRespName (create_vault_account ⟨"Ops", false, true⟩
        (fun _ => .ok ⟨"id-1", "X", some true, some false, none, none, none⟩)).1
      = some "X" ∧
    some "X" ≠ (some "Ops" : Option String) := by
  exact ⟨rfl, rfl, by decide⟩

/-- C4 (amended): the vendor request built for `POST /vault-accounts`
carries the request's `name`, `hidden_on_ui` and `auto_fuel` unchanged,
and the 201 response echoes the vendor-returned account — so whenever
the vendor echoes those request fields back, the response's fields equal
the request's. -/
theorem c4_create_vault_account (request : CreateVaultAccountRequest)
    (vendor : FBCreateVaultAccountRequest → Except String FBVaultAccount)
    (acct : FBVaultAccount)
    (hv : vendor ⟨request.name, request.hidden_on_ui, request.auto_fuel⟩ = .ok acct) :
    (create_vault_account request vendor).2 =
      [⟨request.name, request.hidden_on_ui, request.auto_fuel⟩] ∧
    (create_vault_account request vendor).1 =
      .success 201 (toVaultAccountResponse acct) ∧
    (acct.name = request.name →
      vaRespName (create_vault_account request vendor).1 = some request.name) ∧
    (acct.hidden_on_ui = some request.hidden_on_ui →
      (toVaultAccountResponse acct).hidden_on_ui = some request.hidden_on_ui) ∧
    (acct.auto_fuel = some request.auto_fuel →
      (toVaultAccountResponse acct).auto_fuel = some request.auto_fuel) := by
  refine ⟨?_, ?_, fun h => ?_, fun h => ?_, fun h => ?_⟩
  · simp [create_vault_account, hv]
  · simp [create_vault_account, hv]
  · simp [create_vault_account, hv, vaRespName, toVaultAccountResponse, h]
  · simp [toVaultAccountResponse, h]
  · simp [toVaultAccountResponse, h]

/-- C4 witness: an echoing vendor yields a 201 body whose name is the
request's name. -/
theorem c4_create_vault_account_witness :
    vaRespName (create_vault_account ⟨"Ops", false, true⟩
        (fun _ => .ok ⟨"id-1", "Ops", some false, some true, none, none, none⟩)).1
      = some "Ops" :=
  (c4_create_vault_account ⟨"Ops", false, true⟩
    (fun _ => .ok ⟨"id-1", "Ops", some false, some true, none, none, none⟩)
    ⟨"id-1", "Ops", some false, some true, none, none, none⟩ rfl).2.2.1 rfl

/-! ## C5: pagination passthrough -/

/-- Both vendor outcomes of `get_paged_vault_accounts` record exactly
one call, with the filtered params dict as its kwargs. -/
theorem get_paged_vault_accounts_calls (np ns : Option String) (mat : Option Val)
    (aid ob before after : Option String) (limit : Option Int)
    (vendor : List (String × Val) → Except String (List Dct)) :
    (get_paged_vault_accounts np ns mat aid ob before after limit vendor).2 =
      [pagedParams np ns mat aid ob before after limit] := by
  cases hv : vendor (pagedParams np ns mat aid ob before after limit) <;>
    simp only [get_paged_vault_accounts, hv]

/-- Both vendor outcomes of `get_vault_account_asset_addresses` record
exactly one call. -/
theorem get_addresses_calls (vid aid : String) (before after : Option String)
    (limit : Option Int) (vendor : AddressesVendorRequest → Except String (List Dct)) :
    (get_vault_account_asset_addresses vid aid before after limit vendor).2 =
      [⟨vid, aid, addressesParams before after limit⟩] := by
  cases hv : vendor ⟨vid, aid, addressesParams before after limit⟩ <;>
    simp only [get_vault_account_asset_addresses, hv]

/-- C5 counterexample: with `before`, `after` and `limit` all absent
from the request, both routes still pass `limit` to the vendor — as the
`Query(100, ...)` default — instead of omitting it. -/
theorem c5_counterexample :
    (get_paged_vault_accounts_route none none none none none none none none
        (fun _ => .ok [])).2 = [[("limit", Val.int 100)]] ∧
    (get_vault_account_asset_addresses_route "v" "a" none none none
        (fun _ => .ok [])).2.map AddressesVendorRequest.params =
      [[("limit", Val.int 100)]] := by
  exact ⟨rfl, rfl⟩

set_option maxHeartbeats 1000000 in
/-- C5 (amended): for requests passing validation, each route issues
exactly one vendor call; `before`/`after` are passed unchanged when
present and omitted entirely (no key in the kwargs, not a null value)
when absent — except that the addresses route also omits an
empty-string cursor (Python truthiness) — while `limit` is always
passed: as the request value when present, as the default 100 when
absent. -/
theorem c5_pagination_passthrough (before after : Option String)
    (rawLimit : Option Int) ( namePrefix nameSuffix : Option String)
    (mat : Option Val) (assetId orderBy : Option String) (vid aid : String)
    (vendor1 : List (String × Val) → Except String (List Dct))
    (vendor2 : AddressesVendorRequest → Except String (List Dct))
    (hvalid : validLimit rawLimit = true) :
    (∃ kws, (get_paged_vault_accounts_route namePrefix nameSuffix mat assetId
        orderBy before after rawLimit vendor1).2 = [kws] ∧
      dget kws "before" = before.map Val.str ∧
      dget kws "after" = after.map Val.str ∧
      dget kws "limit" = some (Val.int (rawLimit.getD 100))) ∧
    (∃ req, (get_vault_account_asset_addresses_route vid aid before after
        rawLimit vendor2).2 = [req] ∧
      dget req.params "before" =
        (match before with
         | some b => if b = "" then none else some (Val.str b)
         | none => none) ∧
      dget req.params "after" =
        (match after with
         | some a => if a = "" then none else some (Val.str a)
         | none => none) ∧
      dget req.params "limit" = some (Val.int (rawLimit.getD 100))) := by
  have hlim : rawLimit.getD 100 ≠ 0 := by
    rcases rawLimit with _ | n
    · decide
    · simp only [Option.getD_some]
      simp [validLimit] at hvalid
      omega
  constructor
  · refine ⟨pagedParams namePrefix nameSuffix mat assetId orderBy before after
      (some (rawLimit.getD 100)), ?_, ?_⟩
    · simp only [get_paged_vault_accounts_route, hvalid, if_true]
      exact get_paged_vault_accounts_calls namePrefix nameSuffix mat assetId
        orderBy before after (some (rawLimit.getD 100)) vendor1
    · cases namePrefix <;> cases nameSuffix <;> cases mat <;> cases assetId <;>
        cases orderBy <;> cases before <;> cases after <;> simp [pagedParams, dget]
  · refine ⟨⟨vid, aid, addressesParams before after (some (rawLimit.getD 100))⟩,
      ?_, ?_⟩
    · simp only [get_vault_account_asset_addresses_route, hvalid, if_true]
      exact get_addresses_calls vid aid before after (some (rawLimit.getD 100)) vendor2
    · cases before with
      | none =>
          cases after with
          | none => simp [addressesParams, dget, hlim]
          | some a => by_cases ha : a = "" <;> simp [addressesParams, dget, hlim, ha]
      | some b =>
          cases after with
          | none => by_cases hb : b = "" <;> simp [addressesParams, dget, hlim, hb]
          | some a =>
              by_cases hb : b = "" <;> by_cases ha : a = "" <;>
                simp [addressesParams, dget, hlim, hb, ha]

/-- C5 witness: a present cursor is passed unchanged and a present limit
keeps its value. -/
theorem c5_pagination_witness :
    (∃ kws, (get_paged_vault_accounts_route none none none none none
        (some "curA") none (some 42) (fun _ => .ok [])).2 = [kws] ∧
      dget kws "before" = some (Val.str "curA") ∧
      dget kws "after" = none ∧
      dget kws "limit" = some (Val.int 42)) :=
  ((c5_pagination_passthrough (some "curA") none (some 42) none none none
      none none "v" "a" (fun _ => .ok []) (fun _ => .ok []) (by decide)).1)

/-! ## C9: request validation -/

/-- C9 counterexample: a `GET /vault-accounts` request with `limit=0`
(outside 1–500) is rejected before any vendor call, but with FastAPI's
request-validation status 422, not the claimed 400. -/
theorem c9_counterexample :
    (get_paged_vault_accounts_route none none none none none none none (some 0)
        (fun _ => .ok [])).1.status = 422 ∧
    (get_paged_vault_accounts_route none none none none none none none (some 0)
        (fun _ => .ok [])).1.status ≠ 400 ∧
    (get_paged_vault_accounts_route none none none none none none none (some 0)
        (fun _ => .ok [])).2 = [] := by
  exact ⟨rfl, by decide, rfl⟩

/-- C9 (amended): a `limit` violating its declared 1–500 bounds, and a
body failing pydantic validation — including the empty `name` — are
rejected with HTTP 422 (FastAPI's request-validation status) before any
vendor call is made. -/
theorem c9_validation_rejection (np ns : Option String) (mat : Option Val)
    (aid ob before after : Option String) (vid assetid : String)
    (rawLimit : Option Int) (b : RawCreateVaultAccountBody) (msg : String)
    (vendor1 : List (String × Val) → Except String (List Dct))
    (vendor2 : AddressesVendorRequest → Except String (List Dct))
    (vendor3 : FBCreateVaultAccountRequest → Except String FBVaultAccount) :
    (∀ n, validLimit (some n) = true ↔ 1 ≤ n ∧ n ≤ 500) ∧
    (validLimit rawLimit = false →
      get_paged_vault_accounts_route np ns mat aid ob before after rawLimit vendor1 =
        (.error 422 "request validation error: limit", []) ∧
      get_vault_account_asset_addresses_route vid assetid before after rawLimit vendor2 =
        (.error 422 "request validation error: limit", [])) ∧
    (b.name = some "" →
      validateCreateVaultAccountBody b =
        .error "string should have at least 1 character: name") ∧
    (validateCreateVaultAccountBody b = .error msg →
      (create_vault_account_route b vendor3).1.status = 422 ∧
      (create_vault_account_route b vendor3).2 = []) := by
  refine ⟨fun n => ?_, fun h => ?_, fun h => ?_, fun h => ?_⟩
  · simp [validLimit]
  · constructor <;>
      simp [get_paged_vault_accounts_route,
        get_vault_account_asset_addresses_route, h]
  · simp [validateCreateVaultAccountBody, h]
  · constructor <;> simp [create_vault_account_route, h, HResp.status]

/-- C9 witness: an out-of-bounds limit and an empty name at concrete
inputs. -/
theorem c9_validation_rejection_witness :
    (get_paged_vault_accounts_route none none none none none none none (some 501)
        (fun _ => .ok []) =
      (.error 422 "request validation error: limit", [])) ∧
    ((create_vault_account_route ⟨some "", none, none⟩ (fun _ => .error "e")).1.status = 422 ∧
     (create_vault_account_route ⟨some "", none, none⟩ (fun _ => .error "e")).2 = []) := by
  constructor
  · exact ((c9_validation_rejection none none none none none none none "v" "a"
      (some 501) ⟨some "", none, none⟩ "m" (fun _ => .ok []) (fun _ => .ok [])
      (fun _ => .error "e")).2.1 (by decide)).1
  · exact (c9_validation_rejection none none none none none none none "v" "a"
      (some 501) ⟨some "", none, none⟩
      "string should have at least 1 character: name" (fun _ => .ok [])
      (fun _ => .ok []) (fun _ => .error "e")).2.2.2 rfl
